import Mathlib

/-!
Shallow embedding of `src/mission_planner/ui/main_window.py` (Manas-Planner).

The presentation-layer state is modelled as plain records: a `DroneStatusCard`
holds the rendered label texts and widget properties of one drone card, and a
`MissionPlannerWindow` holds the global status label, the two cards, the
per-drone GPS-active flags (`_gps_active`) and the last-position cache
(`_last_positions`).  Python `float` values are embedded as `ℚ` (every finite
double is a rational; none of the verified properties depend on binary
rounding), `None`-able parameters as `Option`, and the Qt `setText` calls as
functional record updates.  Layout, styling and image loading carry no state
that the update methods read or write, so they are not part of the model.
-/

/-- Round a rational to the nearest integer, ties to even, as Python's
fixed-point string formatting does when it picks the last kept digit. -/
def roundHalfEven (q : ℚ) : ℤ :=
  let f : ℤ := ⌊q⌋
  let r : ℚ := q - (f : ℚ)
  if r < 1/2 then f
  else if 1/2 < r then f + 1
  else if f % 2 = 0 then f else f + 1

/-- The fractional digits of a fixed-point rendering: the decimal digits of
`fp`, left-padded with zeros to `prec` digits. -/
def padFrac (prec : Nat) (fp : Nat) : String :=
  String.mk (List.replicate (prec - (Nat.repr fp).length) '0') ++ Nat.repr fp

/-- Embedding of Python's fixed-point format specifier: `fmtFixed 6 x` stands
for `f"{x:.6f}"` and `fmtFixed 1 x` for `f"{x:.1f}"`. -/
def fmtFixed (prec : Nat) (x : ℚ) : String :=
  let scaled : ℤ := roundHalfEven (x * (10 : ℚ) ^ prec)
  let sgn := if scaled < 0 then "-" else ""
  let m := scaled.natAbs
  sgn ++ Nat.repr (m / 10 ^ prec) ++ "." ++ padFrac prec (m % 10 ^ prec)

/-- Observable state of one `DroneStatusCard`: the card's name, the status
label (`self.status_lbl`: text and its `live` property), the four key/value
tile value labels, and the GPS label (`self.gps_lbl`: text and its `gps`
property). -/
structure DroneStatusCard where
  name : String
  statusText : String
  liveProp : Bool
  latText : String
  lonText : String
  altText : String
  updatedText : String
  gpsText : String
  gpsProp : String
deriving DecidableEq

/-- `DroneStatusCard.__init__`: tiles default to `"--"` when the optional
numeric arguments are absent; `updated_text or "--"` renders `"--"` for both
`None` and the empty string; the GPS label starts as `"GPS: --"` with property
`"unknown"`, and the status label's `live` property starts `False`. -/
def DroneStatusCard.mkCard (name : String) (status_text : String)
    (latitude longitude altitude_m : Option ℚ) (updated_text : Option String) :
    DroneStatusCard :=
  { name := name
  , statusText := status_text
  , liveProp := false
  , latText := match latitude with | none => "--" | some v => fmtFixed 6 v
  , lonText := match longitude with | none => "--" | some v => fmtFixed 6 v
  , altText := match altitude_m with | none => "--" | some v => fmtFixed 1 v ++ " m"
  , updatedText := match updated_text with | none => "--" | some s => if s = "" then "--" else s
  , gpsText := "GPS: --"
  , gpsProp := "unknown" }

/-- `DroneStatusCard.set_position`: each of the four keyword arguments is
independently optional; exactly the tiles whose argument is present are
overwritten (`f"{latitude:.6f}"`, `f"{longitude:.6f}"`, `f"{altitude_m:.1f} m"`,
and `updated_text` verbatim). -/
def DroneStatusCard.set_position (c : DroneStatusCard)
    (latitude longitude altitude_m : Option ℚ) (updated_text : Option String) :
    DroneStatusCard :=
  let c := match latitude with
    | some v => { c with latText := fmtFixed 6 v }
    | none => c
  let c := match longitude with
    | some v => { c with lonText := fmtFixed 6 v }
    | none => c
  let c := match altitude_m with
    | some v => { c with altText := fmtFixed 1 v ++ " m" }
    | none => c
  match updated_text with
  | some s => { c with updatedText := s }
  | none => c

/-- `DroneStatusCard.set_gps_active`: three-valued label update; the style
unpolish/polish/update calls have no state of their own. -/
def DroneStatusCard.set_gps_active (c : DroneStatusCard) (active : Option Bool) :
    DroneStatusCard :=
  match active with
  | none => { c with gpsText := "GPS: --", gpsProp := "unknown" }
  | some a =>
      { c with gpsText := if a then "GPS: Active" else "GPS: Inactive"
             , gpsProp := if a then "active" else "inactive" }

/-- `DroneStatusCard.set_live`: overwrites the status label text and its `live`
property. -/
def DroneStatusCard.set_live (c : DroneStatusCard) (live : Bool) : DroneStatusCard :=
  { c with statusText := if live then "Status: Live" else "Status: Offline"
         , liveProp := live }

/-- The closed set of recognized drone identities. -/
inductive DroneId where
  | freyja
  | cleo
deriving DecidableEq

/-- The normalized key string of a recognized drone, as used for the
dictionary keys and the dispatch comparisons in the source. -/
def nameOf : DroneId → String
  | .freyja => "freyja"
  | .cleo => "cleo"

/-- Observable and internal state of the `MissionPlannerWindow`: the global
status label, the two drone cards, and the two private dictionaries
`_last_positions` (keyed by `"freyja"`/`"cleo"`, absent key = `none`) and
`_gps_active` (both keys present from construction on). -/
structure MissionPlannerWindow where
  globalStatusText : String
  globalLiveProp : Bool
  freyja_card : DroneStatusCard
  cleo_card : DroneStatusCard
  freyjaLastPos : Option (ℚ × ℚ × ℚ)
  cleoLastPos : Option (ℚ × ℚ × ℚ)
  freyjaGps : Bool
  cleoGps : Bool
deriving DecidableEq

/-- `MissionPlannerWindow.__init__`: both cards are built with name and
`"Status: Offline"` only (no position arguments), `_last_positions` starts
empty, and `_gps_active` starts with both drones mapped to `False`. -/
def MissionPlannerWindow.initWindow : MissionPlannerWindow :=
  { globalStatusText := "Status: Offline"
  , globalLiveProp := false
  , freyja_card := DroneStatusCard.mkCard "Freyja" "Status: Offline" none none none none
  , cleo_card := DroneStatusCard.mkCard "Cleo" "Status: Offline" none none none none
  , freyjaLastPos := none
  , cleoLastPos := none
  , freyjaGps := false
  , cleoGps := false }

/-- The card belonging to a recognized drone. -/
def cardOf (w : MissionPlannerWindow) : DroneId → DroneStatusCard
  | .freyja => w.freyja_card
  | .cleo => w.cleo_card

/-- The `_gps_active` entry of a recognized drone. -/
def gpsOf (w : MissionPlannerWindow) : DroneId → Bool
  | .freyja => w.freyjaGps
  | .cleo => w.cleoGps

/-- The `_last_positions` entry of a recognized drone. -/
def lastPosOf (w : MissionPlannerWindow) : DroneId → Option (ℚ × ℚ × ℚ)
  | .freyja => w.freyjaLastPos
  | .cleo => w.cleoLastPos

/-- `MissionPlannerWindow.set_global_live`: overwrites the header status label
and its `live` property. -/
def MissionPlannerWindow.set_global_live (w : MissionPlannerWindow) (live : Bool) :
    MissionPlannerWindow :=
  { w with globalStatusText := if live then "Status: Live" else "Status: Offline"
         , globalLiveProp := live }

/-- `MissionPlannerWindow.set_drone_live`: trim+lowercase the name, dispatch to
the matching card's `set_live`, silently drop unrecognized names. -/
def MissionPlannerWindow.set_drone_live (w : MissionPlannerWindow)
    (drone_name : String) (live : Bool) : MissionPlannerWindow :=
  let name := drone_name.trim.toLower
  if name = "freyja" then { w with freyja_card := w.freyja_card.set_live live }
  else if name = "cleo" then { w with cleo_card := w.cleo_card.set_live live }
  else w

/-- The dead movement check in `update_drone_position`:
`prev is None or any(abs(a - b) > 1e-9 for a, b in zip(prev, curr))`. -/
def movedB (prev : Option (ℚ × ℚ × ℚ)) (curr : ℚ × ℚ × ℚ) : Bool :=
  match prev with
  | none => true
  | some p =>
      decide (|p.1 - curr.1| > 1/1000000000) ||
      decide (|p.2.1 - curr.2.1| > 1/1000000000) ||
      decide (|p.2.2 - curr.2.2| > 1/1000000000)

/-- `MissionPlannerWindow.update_drone_position`: resolve the name (return
unchanged when unrecognized); forward to the card's `set_position` only when
`_gps_active.get(name, False)` holds; then compute the unused `moved` flag and
unconditionally store the current triple in `_last_positions`. -/
def MissionPlannerWindow.update_drone_position (w : MissionPlannerWindow)
    (drone_name : String) (latitude longitude altitude_m : ℚ)
    (updated_text : Option String) : MissionPlannerWindow :=
  let name := drone_name.trim.toLower
  if name = "freyja" then
    let card :=
      if w.freyjaGps then
        w.freyja_card.set_position (some latitude) (some longitude) (some altitude_m) updated_text
      else w.freyja_card
    let prev := w.freyjaLastPos
    let curr := (latitude, longitude, altitude_m)
    let moved := movedB prev curr
    let _ := moved
    { w with freyja_card := card, freyjaLastPos := some curr }
  else if name = "cleo" then
    let card :=
      if w.cleoGps then
        w.cleo_card.set_position (some latitude) (some longitude) (some altitude_m) updated_text
      else w.cleo_card
    let prev := w.cleoLastPos
    let curr := (latitude, longitude, altitude_m)
    let moved := movedB prev curr
    let _ := moved
    { w with cleo_card := card, cleoLastPos := some curr }
  else w

/-- Variant of `update_drone_position` with the dead `moved` computation
removed, used to state that the computation is unobservable. -/
def MissionPlannerWindow.update_drone_position_nomoved (w : MissionPlannerWindow)
    (drone_name : String) (latitude longitude altitude_m : ℚ)
    (updated_text : Option String) : MissionPlannerWindow :=
  let name := drone_name.trim.toLower
  if name = "freyja" then
    let card :=
      if w.freyjaGps then
        w.freyja_card.set_position (some latitude) (some longitude) (some altitude_m) updated_text
      else w.freyja_card
    { w with freyja_card := card, freyjaLastPos := some (latitude, longitude, altitude_m) }
  else if name = "cleo" then
    let card :=
      if w.cleoGps then
        w.cleo_card.set_position (some latitude) (some longitude) (some altitude_m) updated_text
      else w.cleo_card
    { w with cleo_card := card, cleoLastPos := some (latitude, longitude, altitude_m) }
  else w

/-- `MissionPlannerWindow.set_drone_gps_active`: return unchanged for
unrecognized names; otherwise record `bool(active)` in `_gps_active` and
forward the boolean to the matching card's `set_gps_active`. -/
def MissionPlannerWindow.set_drone_gps_active (w : MissionPlannerWindow)
    (drone_name : String) (active : Bool) : MissionPlannerWindow :=
  let name := drone_name.trim.toLower
  if name = "freyja" then
    { w with freyjaGps := active
           , freyja_card := w.freyja_card.set_gps_active (some active) }
  else if name = "cleo" then
    { w with cleoGps := active
           , cleo_card := w.cleo_card.set_gps_active (some active) }
  else w

/-- One invocation of a public window operation, for reachability statements. -/
inductive Op where
  | setGlobalLive (live : Bool)
  | setDroneLive (drone_name : String) (live : Bool)
  | setDroneGpsActive (drone_name : String) (active : Bool)
  | updateDronePosition (drone_name : String) (latitude longitude altitude_m : ℚ)
      (updated_text : Option String)
deriving DecidableEq

/-- Apply one public operation to the window state. -/
def applyOp (w : MissionPlannerWindow) : Op → MissionPlannerWindow
  | .setGlobalLive live => w.set_global_live live
  | .setDroneLive s live => w.set_drone_live s live
  | .setDroneGpsActive s a => w.set_drone_gps_active s a
  | .updateDronePosition s la lo al u => w.update_drone_position s la lo al u

/-- Apply a sequence of public operations from left to right. -/
def run (w : MissionPlannerWindow) (ops : List Op) : MissionPlannerWindow :=
  ops.foldl applyOp w

/-- Argument record of one `update_drone_position` call. -/
structure PosCall where
  drone_name : String
  latitude : ℚ
  longitude : ℚ
  altitude_m : ℚ
  updated_text : Option String
deriving DecidableEq

/-- Apply a sequence of `update_drone_position` calls from left to right. -/
def runUpdates (w : MissionPlannerWindow) (calls : List PosCall) : MissionPlannerWindow :=
  calls.foldl
    (fun w c => w.update_drone_position c.drone_name c.latitude c.longitude c.altitude_m c.updated_text)
    w

/-- The four displayed position tiles of a card, in order
Latitude, Longitude, Altitude, Updated. -/
def posTiles (c : DroneStatusCard) : String × String × String × String :=
  (c.latText, c.lonText, c.altText, c.updatedText)

example : fmtFixed 6 (129716/10000 : ℚ) = "12.971600" := by with_unfolding_all decide
example : fmtFixed 1 (45333/1000 : ℚ) ++ " m" = "45.3 m" := by with_unfolding_all decide
example : fmtFixed 6 (1 : ℚ) = "1.000000" := by with_unfolding_all decide
example : fmtFixed 6 (-5/2 : ℚ) = "-2.500000" := by with_unfolding_all decide

/-! ## Frame lemmas about the card operations -/

theorem posTiles_set_live (c : DroneStatusCard) (b : Bool) :
    posTiles (c.set_live b) = posTiles c := rfl

theorem posTiles_set_gps_active (c : DroneStatusCard) (a : Option Bool) :
    posTiles (c.set_gps_active a) = posTiles c := by
  cases a <;> rfl

theorem gpsText_set_live (c : DroneStatusCard) (b : Bool) :
    (c.set_live b).gpsText = c.gpsText := rfl

theorem gpsText_set_position (c : DroneStatusCard) (lat lon alt : Option ℚ)
    (upd : Option String) :
    (c.set_position lat lon alt upd).gpsText = c.gpsText := by
  cases lat <;> cases lon <;> cases alt <;> cases upd <;> rfl

/-! ## Dispatch lemmas about the window operations -/

theorem cardOf_set_global_live (w : MissionPlannerWindow) (b : Bool) (d : DroneId) :
    cardOf (w.set_global_live b) d = cardOf w d := by
  cases d <;> rfl

theorem gpsOf_set_global_live (w : MissionPlannerWindow) (b : Bool) (d : DroneId) :
    gpsOf (w.set_global_live b) d = gpsOf w d := by
  cases d <;> rfl

theorem gpsOf_set_drone_live (w : MissionPlannerWindow) (s : String) (b : Bool) (d : DroneId) :
    gpsOf (w.set_drone_live s b) d = gpsOf w d := by
  by_cases h1 : s.trim.toLower = "freyja" <;> by_cases h2 : s.trim.toLower = "cleo" <;>
    cases d <;> simp [MissionPlannerWindow.set_drone_live, h1, h2, gpsOf]

theorem posTiles_cardOf_set_drone_live (w : MissionPlannerWindow) (s : String) (b : Bool)
    (d : DroneId) :
    posTiles (cardOf (w.set_drone_live s b) d) = posTiles (cardOf w d) := by
  by_cases h1 : s.trim.toLower = "freyja" <;> by_cases h2 : s.trim.toLower = "cleo" <;>
    cases d <;> simp [MissionPlannerWindow.set_drone_live, h1, h2, cardOf, posTiles_set_live]

theorem gpsText_cardOf_set_drone_live (w : MissionPlannerWindow) (s : String) (b : Bool)
    (d : DroneId) :
    (cardOf (w.set_drone_live s b) d).gpsText = (cardOf w d).gpsText := by
  by_cases h1 : s.trim.toLower = "freyja" <;> by_cases h2 : s.trim.toLower = "cleo" <;>
    cases d <;> simp [MissionPlannerWindow.set_drone_live, h1, h2, cardOf, gpsText_set_live]

theorem gpsOf_update_drone_position (w : MissionPlannerWindow) (s : String)
    (la lo al : ℚ) (u : Option String) (d : DroneId) :
    gpsOf (w.update_drone_position s la lo al u) d = gpsOf w d := by
  by_cases h1 : s.trim.toLower = "freyja" <;> by_cases h2 : s.trim.toLower = "cleo" <;>
    cases d <;> simp [MissionPlannerWindow.update_drone_position, h1, h2, gpsOf]

theorem cardOf_update_of_ne (w : MissionPlannerWindow) (s : String)
    (la lo al : ℚ) (u : Option String) (d : DroneId) (h : s.trim.toLower ≠ nameOf d) :
    cardOf (w.update_drone_position s la lo al u) d = cardOf w d := by
  by_cases h1 : s.trim.toLower = "freyja" <;> by_cases h2 : s.trim.toLower = "cleo" <;>
    cases d <;>
    simp [MissionPlannerWindow.update_drone_position, h1, h2, cardOf, nameOf] at h ⊢

theorem cardOf_update_of_gps_false (w : MissionPlannerWindow) (s : String)
    (la lo al : ℚ) (u : Option String) (d : DroneId) (h : gpsOf w d = false) :
    cardOf (w.update_drone_position s la lo al u) d = cardOf w d := by
  by_cases h1 : s.trim.toLower = "freyja" <;> by_cases h2 : s.trim.toLower = "cleo" <;>
    cases d <;>
    simp [MissionPlannerWindow.update_drone_position, h1, h2, cardOf, gpsOf] at h ⊢ <;>
    simp [h]

theorem cardOf_update_of_match (w : MissionPlannerWindow) (s : String)
    (la lo al : ℚ) (u : Option String) (d : DroneId) (h : s.trim.toLower = nameOf d)
    (hg : gpsOf w d = true) :
    cardOf (w.update_drone_position s la lo al u) d
      = (cardOf w d).set_position (some la) (some lo) (some al) u := by
  cases d <;>
    simp [nameOf] at h <;>
    simp [MissionPlannerWindow.update_drone_position, h, cardOf, gpsOf] at hg ⊢ <;>
    simp [hg]

theorem lastPosOf_update_of_match (w : MissionPlannerWindow) (s : String)
    (la lo al : ℚ) (u : Option String) (d : DroneId) (h : s.trim.toLower = nameOf d) :
    lastPosOf (w.update_drone_position s la lo al u) d = some (la, lo, al) := by
  cases d <;>
    simp [nameOf] at h <;>
    simp [MissionPlannerWindow.update_drone_position, h, lastPosOf]

theorem gpsText_cardOf_update (w : MissionPlannerWindow) (s : String)
    (la lo al : ℚ) (u : Option String) (d : DroneId) :
    (cardOf (w.update_drone_position s la lo al u) d).gpsText = (cardOf w d).gpsText := by
  by_cases h1 : s.trim.toLower = "freyja" <;> by_cases h2 : s.trim.toLower = "cleo" <;>
    cases d <;>
    simp [MissionPlannerWindow.update_drone_position, h1, h2, cardOf, gpsText_set_position] <;>
    split <;> simp [gpsText_set_position]

theorem gpsOf_set_drone_gps_active_of_ne (w : MissionPlannerWindow) (s : String) (a : Bool)
    (d : DroneId) (h : s.trim.toLower ≠ nameOf d) :
    gpsOf (w.set_drone_gps_active s a) d = gpsOf w d := by
  by_cases h1 : s.trim.toLower = "freyja" <;> by_cases h2 : s.trim.toLower = "cleo" <;>
    cases d <;>
    simp [MissionPlannerWindow.set_drone_gps_active, h1, h2, gpsOf, nameOf] at h ⊢

theorem cardOf_set_drone_gps_active_of_ne (w : MissionPlannerWindow) (s : String) (a : Bool)
    (d : DroneId) (h : s.trim.toLower ≠ nameOf d) :
    cardOf (w.set_drone_gps_active s a) d = cardOf w d := by
  by_cases h1 : s.trim.toLower = "freyja" <;> by_cases h2 : s.trim.toLower = "cleo" <;>
    cases d <;>
    simp [MissionPlannerWindow.set_drone_gps_active, h1, h2, cardOf, nameOf] at h ⊢

theorem gpsOf_set_drone_gps_active_of_match (w : MissionPlannerWindow) (s : String) (a : Bool)
    (d : DroneId) (h : s.trim.toLower = nameOf d) :
    gpsOf (w.set_drone_gps_active s a) d = a := by
  cases d <;>
    simp [nameOf] at h <;>
    simp [MissionPlannerWindow.set_drone_gps_active, h, gpsOf]

theorem cardOf_set_drone_gps_active_of_match (w : MissionPlannerWindow) (s : String) (a : Bool)
    (d : DroneId) (h : s.trim.toLower = nameOf d) :
    cardOf (w.set_drone_gps_active s a) d = (cardOf w d).set_gps_active (some a) := by
  cases d <;>
    simp [nameOf] at h <;>
    simp [MissionPlannerWindow.set_drone_gps_active, h, cardOf]

theorem posTiles_cardOf_set_drone_gps_active (w : MissionPlannerWindow) (s : String) (a : Bool)
    (d : DroneId) :
    posTiles (cardOf (w.set_drone_gps_active s a) d) = posTiles (cardOf w d) := by
  by_cases h1 : s.trim.toLower = "freyja" <;> by_cases h2 : s.trim.toLower = "cleo" <;>
    cases d <;>
    simp [MissionPlannerWindow.set_drone_gps_active, h1, h2, cardOf, posTiles_set_gps_active]

/-! ## Frame preservation along update sequences -/

theorem gpsOf_runUpdates (w : MissionPlannerWindow) (calls : List PosCall) (d : DroneId) :
    gpsOf (runUpdates w calls) d = gpsOf w d := by
  induction calls generalizing w with
  | nil => rfl
  | cons c cs ih =>
      have := ih (w.update_drone_position c.drone_name c.latitude c.longitude c.altitude_m
        c.updated_text)
      calc gpsOf (runUpdates w (c :: cs)) d
          = gpsOf (runUpdates (w.update_drone_position c.drone_name c.latitude c.longitude
              c.altitude_m c.updated_text) cs) d := rfl
        _ = gpsOf w d := by
              rw [this, gpsOf_update_drone_position]

theorem cardOf_runUpdates_of_gps_false (w : MissionPlannerWindow) (calls : List PosCall)
    (d : DroneId) (h : gpsOf w d = false) :
    cardOf (runUpdates w calls) d = cardOf w d := by
  induction calls generalizing w with
  | nil => rfl
  | cons c cs ih =>
      have hstep : gpsOf (w.update_drone_position c.drone_name c.latitude c.longitude
          c.altitude_m c.updated_text) d = false := by
        rw [gpsOf_update_drone_position]; exact h
      calc cardOf (runUpdates w (c :: cs)) d
          = cardOf (runUpdates (w.update_drone_position c.drone_name c.latitude c.longitude
              c.altitude_m c.updated_text) cs) d := rfl
        _ = cardOf (w.update_drone_position c.drone_name c.latitude c.longitude c.altitude_m
              c.updated_text) d := ih _ hstep
        _ = cardOf w d := cardOf_update_of_gps_false w _ _ _ _ _ d h

/-- C1: for a recognized drone name, `update_drone_position` forwards the
position to that drone's card `set_position` exactly when the window's
GPS-active flag for that drone is true at the moment of the call; when the
flag is false the card is left unchanged, and it stays unchanged under any
number of further `update_drone_position` calls with arbitrary arguments. -/
theorem claim1_update_forwards_iff_gps (w : MissionPlannerWindow) (s : String) (d : DroneId)
    (h : s.trim.toLower = nameOf d) (lat lon alt : ℚ) (upd : Option String) :
    (gpsOf w d = true →
      cardOf (w.update_drone_position s lat lon alt upd) d
        = (cardOf w d).set_position (some lat) (some lon) (some alt) upd) ∧
    (gpsOf w d = false →
      cardOf (w.update_drone_position s lat lon alt upd) d = cardOf w d) ∧
    (gpsOf w d = false →
      ∀ calls : List PosCall, cardOf (runUpdates w calls) d = cardOf w d) := by
  refine ⟨fun hg => cardOf_update_of_match w s lat lon alt upd d h hg,
          fun hg => cardOf_update_of_gps_false w s lat lon alt upd d hg,
          fun hg calls => cardOf_runUpdates_of_gps_false w calls d hg⟩

set_option maxRecDepth 4000 in
/-- Witness for C1 at concrete inputs: with GPS active for Freyja the card is
updated through `set_position`; from the construction state (GPS inactive) a
batch of three update calls leaves Freyja's card exactly as constructed. -/
theorem claim1_witness :
    " FREYJA ".trim.toLower = nameOf DroneId.freyja ∧
    cardOf ((MissionPlannerWindow.initWindow.set_drone_gps_active "freyja" true).update_drone_position
        " FREYJA " 1 2 3 (some "now")) DroneId.freyja
      = (cardOf (MissionPlannerWindow.initWindow.set_drone_gps_active "freyja" true)
          DroneId.freyja).set_position (some 1) (some 2) (some 3) (some "now") ∧
    cardOf (runUpdates MissionPlannerWindow.initWindow
        [⟨"Freyja", 1, 2, 3, none⟩, ⟨"freyja", 4, 5, 6, some "later"⟩, ⟨"cleo", 7, 8, 9, none⟩])
        DroneId.freyja
      = cardOf MissionPlannerWindow.initWindow DroneId.freyja := by
  refine ⟨by with_unfolding_all decide, ?_, ?_⟩
  · exact (claim1_update_forwards_iff_gps
      (MissionPlannerWindow.initWindow.set_drone_gps_active "freyja" true) " FREYJA "
      DroneId.freyja (by with_unfolding_all decide) 1 2 3 (some "now")).1
      (by with_unfolding_all decide)
  · exact (claim1_update_forwards_iff_gps MissionPlannerWindow.initWindow " FREYJA "
      DroneId.freyja (by with_unfolding_all decide) 1 2 3 (some "now")).2.2
      (by with_unfolding_all decide)
      [⟨"Freyja", 1, 2, 3, none⟩, ⟨"freyja", 4, 5, 6, some "later"⟩, ⟨"cleo", 7, 8, 9, none⟩]

/-- C2: for a drone-name string whose trimmed lowercased form is neither
`"freyja"` nor `"cleo"`, each of `set_drone_live`, `set_drone_gps_active` and
`update_drone_position` returns the window state completely unchanged. -/
theorem claim2_unrecognized_names_are_noops (w : MissionPlannerWindow) (s : String)
    (hf : s.trim.toLower ≠ "freyja") (hc : s.trim.toLower ≠ "cleo")
    (live active : Bool) (lat lon alt : ℚ) (upd : Option String) :
    w.set_drone_live s live = w ∧
    w.update_drone_position s lat lon alt upd = w ∧
    w.set_drone_gps_active s active = w := by
  refine ⟨?_, ?_, ?_⟩
  · simp [MissionPlannerWindow.set_drone_live, hf, hc]
  · simp [MissionPlannerWindow.update_drone_position, hf, hc]
  · simp [MissionPlannerWindow.set_drone_gps_active, hf, hc]

set_option maxRecDepth 4000 in
/-- Witness for C2: the unrecognized name `" Atlas "` leaves the construction
state untouched under all three update entry points. -/
theorem claim2_witness :
    " Atlas ".trim.toLower ≠ "freyja" ∧ " Atlas ".trim.toLower ≠ "cleo" ∧
    (MissionPlannerWindow.initWindow.set_drone_live " Atlas " true
        = MissionPlannerWindow.initWindow ∧
      MissionPlannerWindow.initWindow.update_drone_position " Atlas " 1 2 3 (some "now")
        = MissionPlannerWindow.initWindow ∧
      MissionPlannerWindow.initWindow.set_drone_gps_active " Atlas " true
        = MissionPlannerWindow.initWindow) :=
  ⟨by with_unfolding_all decide, by with_unfolding_all decide,
    claim2_unrecognized_names_are_noops MissionPlannerWindow.initWindow " Atlas "
      (by with_unfolding_all decide) (by with_unfolding_all decide) true true 1 2 3 (some "now")⟩

/-- C3: on every `update_drone_position` call for a recognized drone name, the
window's `_last_positions` entry for that drone becomes the passed triple,
regardless of the GPS-active flag. -/
theorem claim3_cache_always_updated (w : MissionPlannerWindow) (s : String) (d : DroneId)
    (h : s.trim.toLower = nameOf d) (lat lon alt : ℚ) (upd : Option String) :
    lastPosOf (w.update_drone_position s lat lon alt upd) d = some (lat, lon, alt) :=
  lastPosOf_update_of_match w s lat lon alt upd d h

set_option maxRecDepth 4000 in
/-- Witness for C3: from the construction state, where Cleo's GPS is inactive,
an update call for `"Cleo"` still records the triple in the cache. -/
theorem claim3_witness :
    "Cleo".trim.toLower = nameOf DroneId.cleo ∧
    lastPosOf (MissionPlannerWindow.initWindow.update_drone_position "Cleo" 4 5 6 none)
        DroneId.cleo = some (4, 5, 6) :=
  ⟨by with_unfolding_all decide,
    claim3_cache_always_updated MissionPlannerWindow.initWindow "Cleo" DroneId.cleo
      (by with_unfolding_all decide) 4 5 6 none⟩

/-! ## GPS-label frame machinery for the reachability claims -/

/-- An operation that explicitly sets drone `d`'s GPS state: a
`set_drone_gps_active` call whose name resolves to `d`. -/
def touchesGps (d : DroneId) : Op → Prop
  | .setDroneGpsActive s _ => s.trim.toLower = nameOf d
  | _ => False

theorem gps_frame_step (w : MissionPlannerWindow) (d : DroneId) (op : Op)
    (h : ¬ touchesGps d op) :
    gpsOf (applyOp w op) d = gpsOf w d ∧
    (cardOf (applyOp w op) d).gpsText = (cardOf w d).gpsText := by
  cases op with
  | setGlobalLive live =>
      exact ⟨gpsOf_set_global_live w live d,
        by simp only [applyOp]; rw [cardOf_set_global_live]⟩
  | setDroneLive s live =>
      exact ⟨gpsOf_set_drone_live w s live d, gpsText_cardOf_set_drone_live w s live d⟩
  | setDroneGpsActive s a =>
      have hne : s.trim.toLower ≠ nameOf d := h
      exact ⟨gpsOf_set_drone_gps_active_of_ne w s a d hne,
        by simp only [applyOp]; rw [cardOf_set_drone_gps_active_of_ne w s a d hne]⟩
  | updateDronePosition s la lo al u =>
      exact ⟨gpsOf_update_drone_position w s la lo al u d, gpsText_cardOf_update w s la lo al u d⟩

theorem gps_frame_run (w : MissionPlannerWindow) (d : DroneId) (ops : List Op)
    (h : ∀ op ∈ ops, ¬ touchesGps d op) :
    gpsOf (run w ops) d = gpsOf w d ∧
    (cardOf (run w ops) d).gpsText = (cardOf w d).gpsText := by
  induction ops generalizing w with
  | nil => exact ⟨rfl, rfl⟩
  | cons op ops ih =>
      have hstep := gps_frame_step w d op (h op (List.mem_cons_self op ops))
      have hrest := ih (applyOp w op) (fun o ho => h o (List.mem_cons_of_mem op ho))
      exact ⟨hrest.1.trans hstep.1, hrest.2.trans hstep.2⟩

/-- C6: at construction the window-level GPS flag of each drone is `false`
while that drone's card still renders `"GPS: --"` — observably different from
the `"GPS: Inactive"` the card would render for an explicit `false` — and this
divergence persists through any operation sequence that contains no
`set_drone_gps_active` call resolving to that drone. -/
theorem claim6_initial_state_divergence (d : DroneId) (ops : List Op)
    (h : ∀ op ∈ ops, ¬ touchesGps d op) :
    gpsOf MissionPlannerWindow.initWindow d = false ∧
    (cardOf MissionPlannerWindow.initWindow d).gpsText = "GPS: --" ∧
    (cardOf MissionPlannerWindow.initWindow d).gpsText
      ≠ ((cardOf MissionPlannerWindow.initWindow d).set_gps_active (some false)).gpsText ∧
    gpsOf (run MissionPlannerWindow.initWindow ops) d = false ∧
    (cardOf (run MissionPlannerWindow.initWindow ops) d).gpsText = "GPS: --" := by
  have hrun := gps_frame_run MissionPlannerWindow.initWindow d ops h
  have hgps : gpsOf MissionPlannerWindow.initWindow d = false := by cases d <;> rfl
  have htext : (cardOf MissionPlannerWindow.initWindow d).gpsText = "GPS: --" := by
    cases d <;> rfl
  refine ⟨hgps, htext, ?_, hrun.1.trans hgps, hrun.2.trans htext⟩
  cases d <;> with_unfolding_all decide

set_option maxRecDepth 4000 in
/-- Witness for C6: a run consisting of live-status changes and position
updates for both drones (but no GPS-state call for Freyja) keeps Freyja's flag
`false` and its GPS label at `"GPS: --"`. -/
theorem claim6_witness :
    (∀ op ∈ [Op.setGlobalLive true, Op.setDroneLive "Freyja" true,
        Op.updateDronePosition "freyja" 1 2 3 none, Op.setDroneGpsActive "cleo" true],
      ¬ touchesGps DroneId.freyja op) ∧
    (gpsOf MissionPlannerWindow.initWindow DroneId.freyja = false ∧
      (cardOf MissionPlannerWindow.initWindow DroneId.freyja).gpsText = "GPS: --" ∧
      (cardOf MissionPlannerWindow.initWindow DroneId.freyja).gpsText
        ≠ ((cardOf MissionPlannerWindow.initWindow DroneId.freyja).set_gps_active
            (some false)).gpsText ∧
      gpsOf (run MissionPlannerWindow.initWindow [Op.setGlobalLive true,
          Op.setDroneLive "Freyja" true, Op.updateDronePosition "freyja" 1 2 3 none,
          Op.setDroneGpsActive "cleo" true]) DroneId.freyja = false ∧
      (cardOf (run MissionPlannerWindow.initWindow [Op.setGlobalLive true,
          Op.setDroneLive "Freyja" true, Op.updateDronePosition "freyja" 1 2 3 none,
          Op.setDroneGpsActive "cleo" true]) DroneId.freyja).gpsText = "GPS: --") := by
  have hops : ∀ op ∈ [Op.setGlobalLive true, Op.setDroneLive "Freyja" true,
      Op.updateDronePosition "freyja" 1 2 3 none, Op.setDroneGpsActive "cleo" true],
      ¬ touchesGps DroneId.freyja op := by
    intro op hop
    fin_cases hop
    · simp [touchesGps]
    · simp [touchesGps]
    · simp [touchesGps]
    · show ¬ ("cleo".trim.toLower = nameOf DroneId.freyja)
      with_unfolding_all decide
  exact ⟨hops, claim6_initial_state_divergence DroneId.freyja _ hops⟩

/-- C7: `set_live` is idempotent — a second call with the same boolean leaves
the whole observable card state unchanged — and the status label reads
`"Status: Live"` for `true` and `"Status: Offline"` for `false`, with the
`live` property tracking the argument. -/
theorem claim7_set_live_idempotent (c : DroneStatusCard) (b : Bool) :
    (c.set_live b).set_live b = c.set_live b ∧
    (c.set_live true).statusText = "Status: Live" ∧
    (c.set_live false).statusText = "Status: Offline" ∧
    (c.set_live b).liveProp = b :=
  ⟨rfl, rfl, rfl, rfl⟩

/-! ## The formatted numeric tiles can never read the placeholder -/

theorem length_padFrac (prec fp : Nat) : prec ≤ (padFrac prec fp).length := by
  unfold padFrac
  rw [String.length_append, String.length_mk, List.length_replicate]
  omega

theorem length_fmtFixed (prec : Nat) (x : ℚ) : prec + 1 ≤ (fmtFixed prec x).length := by
  have h1 := length_padFrac prec ((roundHalfEven (x * (10 : ℚ) ^ prec)).natAbs % 10 ^ prec)
  have h2 : ("." : String).length = 1 := rfl
  have h3 : ("-" : String).length = 1 := rfl
  have h4 : ("" : String).length = 0 := rfl
  simp only [fmtFixed, String.length_append]
  split <;> omega

theorem fmtFixed_ne_placeholder (x : ℚ) : fmtFixed 6 x ≠ "--" := by
  intro heq
  have h1 := length_fmtFixed 6 x
  rw [heq] at h1
  have h2 : ("--" : String).length = 2 := rfl
  omega

theorem fmtAlt_ne_placeholder (x : ℚ) : fmtFixed 1 x ++ " m" ≠ "--" := by
  intro heq
  have h1 : ("--" : String).length = (fmtFixed 1 x).length + (" m" : String).length := by
    rw [← heq, String.length_append]
  have h2 := length_fmtFixed 1 x
  have h3 : ("--" : String).length = 2 := rfl
  have h4 : (" m" : String).length = 2 := rfl
  omega

/-- C4 counterexample: the claim that no sequence of `set_position` calls can
ever put the placeholder `"--"` back into a tile fails for the Updated tile,
because `updated_text` is copied verbatim: after writing `"12:00"`, a further
call passing the literal `"--"` reverts the tile to `"--"`. -/
theorem claim4_counterexample :
    ((DroneStatusCard.mkCard "Freyja" "Status: Offline" none none none none).set_position
        none none none (some "12:00")).updatedText = "12:00" ∧
    (((DroneStatusCard.mkCard "Freyja" "Status: Offline" none none none none).set_position
        none none none (some "12:00")).set_position none none none (some "--")).updatedText
      = "--" := by
  with_unfolding_all decide

/-- C4 (amended): a `set_position` call overwrites exactly the tiles whose
argument is non-null — latitude/longitude with 6 decimal places, altitude with
1 decimal place plus `" m"`, the Updated text verbatim — and a numeric tile
reads `"--"` after the call only if it already did and its argument was null
(the formatters never produce `"--"`); the Updated tile reads `"--"` after the
call only if the caller passed the literal string `"--"`, or passed nothing
while the tile already read `"--"`. -/
theorem claim4_selective_tile_update (c : DroneStatusCard) (lat lon alt : Option ℚ)
    (upd : Option String) :
    ((c.set_position lat lon alt upd).latText
        = match lat with | some v => fmtFixed 6 v | none => c.latText) ∧
    ((c.set_position lat lon alt upd).lonText
        = match lon with | some v => fmtFixed 6 v | none => c.lonText) ∧
    ((c.set_position lat lon alt upd).altText
        = match alt with | some v => fmtFixed 1 v ++ " m" | none => c.altText) ∧
    ((c.set_position lat lon alt upd).updatedText
        = match upd with | some s => s | none => c.updatedText) ∧
    ((c.set_position lat lon alt upd).latText = "--" ↔ lat = none ∧ c.latText = "--") ∧
    ((c.set_position lat lon alt upd).lonText = "--" ↔ lon = none ∧ c.lonText = "--") ∧
    ((c.set_position lat lon alt upd).altText = "--" ↔ alt = none ∧ c.altText = "--") ∧
    ((c.set_position lat lon alt upd).updatedText = "--" ↔
      upd = some "--" ∨ (upd = none ∧ c.updatedText = "--")) := by
  cases lat <;> cases lon <;> cases alt <;> cases upd <;>
    simp [DroneStatusCard.set_position, fmtFixed_ne_placeholder, fmtAlt_ne_placeholder]

/-- C5: in any state, a step of any public operation changes a drone's
displayed position tiles only if that step is an `update_drone_position` call
whose name resolves to that drone while the drone's GPS-active flag is true at
the moment of the call; in particular a GPS-state change never clears them. -/
theorem claim5_tiles_mutate_only_with_active_gps (w : MissionPlannerWindow) (op : Op)
    (d : DroneId) (h : posTiles (cardOf (applyOp w op) d) ≠ posTiles (cardOf w d)) :
    ∃ s lat lon alt upd, op = Op.updateDronePosition s lat lon alt upd ∧
      s.trim.toLower = nameOf d ∧ gpsOf w d = true := by
  cases op with
  | setGlobalLive live =>
      exact absurd (congrArg posTiles (cardOf_set_global_live w live d)) h
  | setDroneLive s live =>
      exact absurd (posTiles_cardOf_set_drone_live w s live d) h
  | setDroneGpsActive s a =>
      exact absurd (posTiles_cardOf_set_drone_gps_active w s a d) h
  | updateDronePosition s la lo al u =>
      by_cases h1 : s.trim.toLower = nameOf d
      · cases hg : gpsOf w d with
        | true => exact ⟨s, la, lo, al, u, rfl, h1, rfl⟩
        | false =>
            exact absurd (congrArg posTiles (cardOf_update_of_gps_false w s la lo al u d hg)) h
      · exact absurd (congrArg posTiles (cardOf_update_of_ne w s la lo al u d h1)) h

set_option maxRecDepth 4000 in
/-- Witness for C5: with Freyja's GPS just activated, an update step does
change the tiles, and the theorem then yields that the step is a position
update resolving to Freyja with the flag true at call time. -/
theorem claim5_witness :
    posTiles (cardOf (applyOp (MissionPlannerWindow.initWindow.set_drone_gps_active "freyja" true)
        (Op.updateDronePosition "freyja" 1 2 3 none)) DroneId.freyja)
      ≠ posTiles (cardOf (MissionPlannerWindow.initWindow.set_drone_gps_active "freyja" true)
          DroneId.freyja) ∧
    (∃ s lat lon alt upd,
      Op.updateDronePosition "freyja" (1 : ℚ) 2 3 none = Op.updateDronePosition s lat lon alt upd ∧
      s.trim.toLower = nameOf DroneId.freyja ∧
      gpsOf (MissionPlannerWindow.initWindow.set_drone_gps_active "freyja" true)
        DroneId.freyja = true) :=
  ⟨by with_unfolding_all decide,
    claim5_tiles_mutate_only_with_active_gps
      (MissionPlannerWindow.initWindow.set_drone_gps_active "freyja" true)
      (Op.updateDronePosition "freyja" 1 2 3 none) DroneId.freyja
      (by with_unfolding_all decide)⟩

/-- C8: the `moved` boolean inside `update_drone_position` is dead — the
operation is extensionally equal to the variant with the computation removed —
and it is true exactly when there is no cached previous position or some
coordinate of the new triple differs from the cached one by more than `1e-9`. -/
theorem claim8_moved_computation_is_dead :
    (∀ (w : MissionPlannerWindow) (s : String) (lat lon alt : ℚ) (upd : Option String),
        w.update_drone_position s lat lon alt upd
          = w.update_drone_position_nomoved s lat lon alt upd) ∧
    (∀ (prev : Option (ℚ × ℚ × ℚ)) (curr : ℚ × ℚ × ℚ),
        movedB prev curr = true ↔
          prev = none ∨ ∃ a b c, prev = some (a, b, c) ∧
            (|a - curr.1| > 1/1000000000 ∨ |b - curr.2.1| > 1/1000000000 ∨
              |c - curr.2.2| > 1/1000000000)) := by
  constructor
  · intro w s lat lon alt upd
    rfl
  · intro prev curr
    cases prev with
    | none => simp [movedB]
    | some p =>
        obtain ⟨a, b, c⟩ := p
        constructor
        · intro hx
          have hx' : |a - curr.1| > 1/1000000000 ∨ |b - curr.2.1| > 1/1000000000 ∨
              |c - curr.2.2| > 1/1000000000 := by
            simpa [movedB, Bool.or_eq_true, decide_eq_true_eq, or_assoc] using hx
          exact Or.inr ⟨a, b, c, rfl, hx'⟩
        · rintro (hn | ⟨a1, b1, c1, heq, hx⟩)
          · exact absurd hn (by simp)
          · obtain ⟨rfl, rfl, rfl⟩ : a = a1 ∧ b = b1 ∧ c = c1 := by
              simpa [Prod.ext_iff] using heq
            simp only [movedB, Bool.or_eq_true, decide_eq_true_eq, or_assoc]
            tauto

/-! ## Exception-aware mirrors of the operations (for the totality claim) -/

/-- Exception-aware mirror of `set_position`: Python exceptions would appear
as `Except.error`; the source has no failure point, so every return site is
`Except.ok`. -/
def DroneStatusCard.set_positionE (c : DroneStatusCard)
    (latitude longitude altitude_m : Option ℚ) (updated_text : Option String) :
    Except String DroneStatusCard := do
  let c ← match latitude with
    | some v => Except.ok { c with latText := fmtFixed 6 v }
    | none => Except.ok c
  let c ← match longitude with
    | some v => Except.ok { c with lonText := fmtFixed 6 v }
    | none => Except.ok c
  let c ← match altitude_m with
    | some v => Except.ok { c with altText := fmtFixed 1 v ++ " m" }
    | none => Except.ok c
  match updated_text with
  | some s => Except.ok { c with updatedText := s }
  | none => Except.ok c

/-- Exception-aware mirror of `set_gps_active`. -/
def DroneStatusCard.set_gps_activeE (c : DroneStatusCard) (active : Option Bool) :
    Except String DroneStatusCard :=
  match active with
  | none => Except.ok { c with gpsText := "GPS: --", gpsProp := "unknown" }
  | some a =>
      Except.ok { c with gpsText := if a then "GPS: Active" else "GPS: Inactive"
                       , gpsProp := if a then "active" else "inactive" }

/-- Exception-aware mirror of `set_live`. -/
def DroneStatusCard.set_liveE (c : DroneStatusCard) (live : Bool) :
    Except String DroneStatusCard :=
  Except.ok { c with statusText := if live then "Status: Live" else "Status: Offline"
                   , liveProp := live }

/-- Exception-aware mirror of `set_global_live`. -/
def MissionPlannerWindow.set_global_liveE (w : MissionPlannerWindow) (live : Bool) :
    Except String MissionPlannerWindow :=
  Except.ok { w with globalStatusText := if live then "Status: Live" else "Status: Offline"
                   , globalLiveProp := live }

/-- Exception-aware mirror of `set_drone_live`. -/
def MissionPlannerWindow.set_drone_liveE (w : MissionPlannerWindow)
    (drone_name : String) (live : Bool) : Except String MissionPlannerWindow := do
  let name := drone_name.trim.toLower
  if name = "freyja" then
    let card ← w.freyja_card.set_liveE live
    Except.ok { w with freyja_card := card }
  else if name = "cleo" then
    let card ← w.cleo_card.set_liveE live
    Except.ok { w with cleo_card := card }
  else Except.ok w

/-- Exception-aware mirror of `update_drone_position`. -/
def MissionPlannerWindow.update_drone_positionE (w : MissionPlannerWindow)
    (drone_name : String) (latitude longitude altitude_m : ℚ)
    (updated_text : Option String) : Except String MissionPlannerWindow := do
  let name := drone_name.trim.toLower
  if name = "freyja" then
    let card ←
      if w.freyjaGps then
        w.freyja_card.set_positionE (some latitude) (some longitude) (some altitude_m) updated_text
      else Except.ok w.freyja_card
    let moved := movedB w.freyjaLastPos (latitude, longitude, altitude_m)
    let _ := moved
    Except.ok { w with freyja_card := card
                     , freyjaLastPos := some (latitude, longitude, altitude_m) }
  else if name = "cleo" then
    let card ←
      if w.cleoGps then
        w.cleo_card.set_positionE (some latitude) (some longitude) (some altitude_m) updated_text
      else Except.ok w.cleo_card
    let moved := movedB w.cleoLastPos (latitude, longitude, altitude_m)
    let _ := moved
    Except.ok { w with cleo_card := card
                     , cleoLastPos := some (latitude, longitude, altitude_m) }
  else Except.ok w

/-- Exception-aware mirror of `set_drone_gps_active`. -/
def MissionPlannerWindow.set_drone_gps_activeE (w : MissionPlannerWindow)
    (drone_name : String) (active : Bool) : Except String MissionPlannerWindow := do
  let name := drone_name.trim.toLower
  if name = "freyja" then
    let card ← w.freyja_card.set_gps_activeE (some active)
    Except.ok { w with freyjaGps := active, freyja_card := card }
  else if name = "cleo" then
    let card ← w.cleo_card.set_gps_activeE (some active)
    Except.ok { w with cleoGps := active, cleo_card := card }
  else Except.ok w

theorem set_positionE_ok (c : DroneStatusCard) (lat lon alt : Option ℚ)
    (upd : Option String) :
    c.set_positionE lat lon alt upd = Except.ok (c.set_position lat lon alt upd) := by
  cases lat <;> cases lon <;> cases alt <;> cases upd <;> rfl

theorem set_gps_activeE_ok (c : DroneStatusCard) (a : Option Bool) :
    c.set_gps_activeE a = Except.ok (c.set_gps_active a) := by
  cases a <;> rfl

theorem set_liveE_ok (c : DroneStatusCard) (b : Bool) :
    c.set_liveE b = Except.ok (c.set_live b) := rfl

theorem set_global_liveE_ok (w : MissionPlannerWindow) (b : Bool) :
    w.set_global_liveE b = Except.ok (w.set_global_live b) := rfl

theorem set_drone_liveE_ok (w : MissionPlannerWindow) (s : String) (b : Bool) :
    w.set_drone_liveE s b = Except.ok (w.set_drone_live s b) := by
  by_cases h1 : s.trim.toLower = "freyja" <;> by_cases h2 : s.trim.toLower = "cleo" <;>
    simp [MissionPlannerWindow.set_drone_liveE, MissionPlannerWindow.set_drone_live,
      DroneStatusCard.set_liveE, h1, h2] <;> rfl

theorem set_drone_gps_activeE_ok (w : MissionPlannerWindow) (s : String) (a : Bool) :
    w.set_drone_gps_activeE s a = Except.ok (w.set_drone_gps_active s a) := by
  by_cases h1 : s.trim.toLower = "freyja" <;> by_cases h2 : s.trim.toLower = "cleo" <;>
    simp [MissionPlannerWindow.set_drone_gps_activeE, MissionPlannerWindow.set_drone_gps_active,
      DroneStatusCard.set_gps_activeE, DroneStatusCard.set_gps_active, h1, h2] <;> rfl

theorem update_drone_positionE_ok (w : MissionPlannerWindow) (s : String)
    (lat lon alt : ℚ) (upd : Option String) :
    w.update_drone_positionE s lat lon alt upd
      = Except.ok (w.update_drone_position s lat lon alt upd) := by
  by_cases h1 : s.trim.toLower = "freyja" <;> by_cases h2 : s.trim.toLower = "cleo" <;>
    simp [MissionPlannerWindow.update_drone_positionE, MissionPlannerWindow.update_drone_position,
      set_positionE_ok, h1, h2] <;>
    split <;> rfl

/-- C9: every public operation is a total function of its declared inputs —
its exception-aware mirror, in which a Python exception would surface as
`Except.error`, returns `Except.ok` of the pure result for all argument
values, including arbitrary name strings and unconstrained coordinates. -/
theorem claim9_operations_never_raise :
    (∀ (c : DroneStatusCard) (lat lon alt : Option ℚ) (upd : Option String),
        c.set_positionE lat lon alt upd = Except.ok (c.set_position lat lon alt upd)) ∧
    (∀ (c : DroneStatusCard) (a : Option Bool),
        c.set_gps_activeE a = Except.ok (c.set_gps_active a)) ∧
    (∀ (c : DroneStatusCard) (b : Bool), c.set_liveE b = Except.ok (c.set_live b)) ∧
    (∀ (w : MissionPlannerWindow) (b : Bool),
        w.set_global_liveE b = Except.ok (w.set_global_live b)) ∧
    (∀ (w : MissionPlannerWindow) (s : String) (b : Bool),
        w.set_drone_liveE s b = Except.ok (w.set_drone_live s b)) ∧
    (∀ (w : MissionPlannerWindow) (s : String) (a : Bool),
        w.set_drone_gps_activeE s a = Except.ok (w.set_drone_gps_active s a)) ∧
    (∀ (w : MissionPlannerWindow) (s : String) (lat lon alt : ℚ) (upd : Option String),
        w.update_drone_positionE s lat lon alt upd
          = Except.ok (w.update_drone_position s lat lon alt upd)) :=
  ⟨set_positionE_ok, set_gps_activeE_ok, set_liveE_ok, set_global_liveE_ok,
    set_drone_liveE_ok, set_drone_gps_activeE_ok, update_drone_positionE_ok⟩

/-! ## GPS label / flag agreement after an explicit GPS-state call -/

/-- The window-level GPS flag of drone `d` and the card-level GPS label agree:
the label renders exactly the stored boolean. -/
def gpsLabelConsistent (w : MissionPlannerWindow) (d : DroneId) : Prop :=
  (cardOf w d).gpsText = (if gpsOf w d then "GPS: Active" else "GPS: Inactive")

theorem gpsLabelConsistent_establish (w : MissionPlannerWindow) (s : String) (a : Bool)
    (d : DroneId) (h : s.trim.toLower = nameOf d) :
    gpsLabelConsistent (w.set_drone_gps_active s a) d := by
  unfold gpsLabelConsistent
  rw [cardOf_set_drone_gps_active_of_match w s a d h,
    gpsOf_set_drone_gps_active_of_match w s a d h]
  cases a <;> rfl

theorem gpsLabelConsistent_step (w : MissionPlannerWindow) (d : DroneId) (op : Op)
    (h : gpsLabelConsistent w d) : gpsLabelConsistent (applyOp w op) d := by
  cases op with
  | setGlobalLive live =>
      unfold gpsLabelConsistent at h ⊢
      simp only [applyOp, cardOf_set_global_live, gpsOf_set_global_live]
      exact h
  | setDroneLive s live =>
      unfold gpsLabelConsistent at h ⊢
      simp only [applyOp, gpsText_cardOf_set_drone_live, gpsOf_set_drone_live]
      exact h
  | setDroneGpsActive s a =>
      by_cases hm : s.trim.toLower = nameOf d
      · exact gpsLabelConsistent_establish w s a d hm
      · unfold gpsLabelConsistent at h ⊢
        simp only [applyOp, cardOf_set_drone_gps_active_of_ne w s a d hm,
          gpsOf_set_drone_gps_active_of_ne w s a d hm]
        exact h
  | updateDronePosition s la lo al u =>
      unfold gpsLabelConsistent at h ⊢
      simp only [applyOp, gpsText_cardOf_update, gpsOf_update_drone_position]
      exact h

theorem gpsLabelConsistent_run (w : MissionPlannerWindow) (d : DroneId) (ops : List Op)
    (h : gpsLabelConsistent w d) : gpsLabelConsistent (run w ops) d := by
  induction ops generalizing w with
  | nil => exact h
  | cons op ops ih => exact ih (applyOp w op) (gpsLabelConsistent_step w d op h)

/-- C10: once `set_drone_gps_active` has been called with a name resolving to
drone `d`, in every state reachable by further public operations the card's
GPS label reads `"GPS: Active"` exactly when the stored flag is true and
`"GPS: Inactive"` exactly when it is false, and it never reads `"GPS: --"`
again. -/
theorem claim10_gps_label_tracks_flag (w : MissionPlannerWindow) (s : String) (a : Bool)
    (d : DroneId) (h : s.trim.toLower = nameOf d) (ops : List Op) :
    ((cardOf (run (w.set_drone_gps_active s a) ops) d).gpsText
        = if gpsOf (run (w.set_drone_gps_active s a) ops) d then "GPS: Active"
          else "GPS: Inactive") ∧
    (cardOf (run (w.set_drone_gps_active s a) ops) d).gpsText ≠ "GPS: --" := by
  have hc := gpsLabelConsistent_run (w.set_drone_gps_active s a) d ops
    (gpsLabelConsistent_establish w s a d h)
  unfold gpsLabelConsistent at hc
  refine ⟨hc, ?_⟩
  rw [hc]
  split <;> decide

set_option maxRecDepth 4000 in
/-- Witness for C10, matching the spec's concrete scenario: after
`set_drone_gps_active("cleo", false)` Cleo's label reads `"GPS: Inactive"`
(the stored flag being false), and is no longer `"GPS: --"`. -/
theorem claim10_witness :
    "cleo".trim.toLower = nameOf DroneId.cleo ∧
    (((cardOf (run (MissionPlannerWindow.initWindow.set_drone_gps_active "cleo" false) [])
        DroneId.cleo).gpsText
        = if gpsOf (run (MissionPlannerWindow.initWindow.set_drone_gps_active "cleo" false) [])
            DroneId.cleo then "GPS: Active" else "GPS: Inactive") ∧
      (cardOf (run (MissionPlannerWindow.initWindow.set_drone_gps_active "cleo" false) [])
        DroneId.cleo).gpsText ≠ "GPS: --") :=
  ⟨by with_unfolding_all decide,
    claim10_gps_label_tracks_flag MissionPlannerWindow.initWindow "cleo" false DroneId.cleo
      (by with_unfolding_all decide) []⟩
